import Mathlib

/-!
# Verification of the `rep` cell-agent client and reconciliation engine

Shallow embedding of `src/client.go` (the cell client: `State`, `Perform`,
`StopLRPInstance`, `CancelTask`, `StateClientTimeout`) together with
spec-modelled definitions for the parts of the repository that are exercised
only through `src/cmd/rep/main_test.go` (startup CA-cert validation, capacity
advertisement, the bulk reconciler, the evacuation controller and the
backend-health startup gate).
-/

namespace Rep

/-! ## Data model (from `code.cloudfoundry.org/bbs/models`, as used by `client.go`) -/

/-- `models.ActualLRPKey`: `{ProcessGuid, Index, Domain}`. -/
structure ActualLRPKey where
  processGuid : String
  index : Int
  domain : String
  deriving Repr, DecidableEq

/-- `models.ActualLRPInstanceKey`: `{InstanceGuid, CellId}`. -/
structure ActualLRPInstanceKey where
  instanceGuid : String
  cellId : String
  deriving Repr, DecidableEq

/-- `rep.Resources`: triple of non-negative integers (spec §3). -/
structure Resources where
  memoryMB : Nat
  diskMB : Nat
  containers : Nat
  deriving Repr, DecidableEq

/-- `rep.CellState` as far as the claims consult it: the two resource triples.
Remaining fields of the snapshot do not influence any claim. -/
structure CellState where
  totalResources : Resources
  availableResources : Resources
  deriving Repr, DecidableEq

/-- `rep.Work`: `{LRPs[], Tasks[]}` (spec §4.6); contents opaque to the client,
identified here by their placement-key guids. -/
structure Work where
  lrps : List String
  tasks : List String
  deriving Repr, DecidableEq

/-! ## HTTP layer

`net/http` exchanges are embedded as total data: a request record, and a
response that is either a transport error (`Except.error`) or a status code
with a typed body.  A Go `*http.Client` becomes its `Timeout` field plus its
observable behaviour, a function from requests to responses. -/

/-- Typed response bodies: the JSON payloads the client ever decodes, plus raw
text for everything else (`json.Decoder.Decode` failures map to `none` in the
decode functions below). -/
inductive Body where
  | cellState (s : CellState)
  | work (w : Work)
  | raw (s : String)
  deriving Repr, DecidableEq

structure HTTPRequest where
  method : String
  url : String
  headers : List (String × String)
  body : Option Body
  deriving Repr, DecidableEq

structure HTTPResponse where
  status : Nat
  body : Body
  deriving Repr, DecidableEq

/-- A Go `*http.Client`: its `Timeout` and its observable `Do` behaviour.
A transport failure surfaces as `Except.error msg`, mirroring a non-nil error
from `(*http.Client).Do`. -/
structure HTTPClient where
  timeout : Nat
  doReq : HTTPRequest → Except String HTTPResponse

/-- `json.Decoder.Decode(&state)`: succeeds only on a CellState payload. -/
def decodeCellState : Body → Option CellState
  | .cellState s => some s
  | _ => none

/-- `json.Decoder.Decode(&failedWork)`: succeeds only on a Work payload. -/
def decodeWork : Body → Option Work
  | .work w => some w
  | _ => none

/-- `http.StatusText` from Go's `net/http`, for the codes that occur in this
repository's routes and tests; unknown codes give `""` exactly as in Go. -/
def statusText : Nat → String
  | 200 => "OK"
  | 202 => "Accepted"
  | 400 => "Bad Request"
  | 404 => "Not Found"
  | 500 => "Internal Server Error"
  | 503 => "Service Unavailable"
  | _ => ""

/-! ## Routes and rata request generation

The route table (`rep.Routes`) lives outside `src/`; its paths are pinned by
the spec's HTTP table (§6) and by the URLs asserted in `src/client_test.go`.
A rata path is a sequence of literal and `:param` segments; `CreateRequest`
substitutes params and fails when one is missing. -/

inductive PathSeg where
  | lit (s : String)
  | param (name : String)
  deriving Repr, DecidableEq

/-- rata params: an association list, as `rata.Params`. -/
def RataParams := List (String × String)

def lookupParam (ps : List (String × String)) (name : String) : Option String :=
  (ps.find? (fun p => p.1 = name)).map (·.2)

/-- Substitute params into a route's segments (rata path generation); `none`
when a `:param` has no binding. -/
def genPath (segs : List PathSeg) (ps : List (String × String)) : Option String :=
  match segs.mapM (fun (seg : PathSeg) =>
    match seg with
    | .lit s => some s
    | .param n => lookupParam ps n) with
  | none => none
  | some parts => some (String.join (parts.map (fun s => "/" ++ s)))

/-- Modelled from the spec: route `/v1/lrps/{pg}/instances/{ig}/stop` of the
HTTP table (§6); `rep.StopLRPInstanceRoute`'s path is not under `src/`. -/
def StopLRPInstanceRoutePath : List PathSeg :=
  [.lit "v1", .lit "lrps", .param "process_guid", .lit "instances",
   .param "instance_guid", .lit "stop"]

/-- Modelled from the spec: route `/v1/tasks/{tg}/cancel` of the HTTP table
(§6); `rep.CancelTaskRoute`'s path is not under `src/`. -/
def CancelTaskRoutePath : List PathSeg :=
  [.lit "v1", .lit "tasks", .param "task_guid", .lit "cancel"]

/-- Modelled from the spec: route `GET /state` of the HTTP table (§6);
`rep.StateRoute`'s path is not under `src/`. -/
def StateRoutePath : List PathSeg := [.lit "state"]

/-- Modelled from the spec: route `POST /work` of the HTTP table (§6);
`rep.PerformRoute`'s path is not under `src/`. -/
def PerformRoutePath : List PathSeg := [.lit "work"]

/-! ## The client (`src/client.go`) -/

/-- The `client` struct of `client.go:57`: a regular HTTP client, a dedicated
state HTTP client and the cell's address (the request generator is determined
by the address and the route table). -/
structure RepClient where
  httpClient : HTTPClient
  stateClient : HTTPClient
  address : String

/-- `NewClient` (`client.go:64`). -/
def NewClient (httpClient stateClient : HTTPClient) (address : String) : RepClient :=
  { httpClient := httpClient, stateClient := stateClient, address := address }

/-- `client.StateClientTimeout` (`client.go:77`). -/
def StateClientTimeout (c : RepClient) : Nat :=
  c.stateClient.timeout

/-- `stopParamsFromLRP` (`client.go:199`): three params, including the
stringified `Index`. -/
def stopParamsFromLRP (key : ActualLRPKey) (instanceKey : ActualLRPInstanceKey) :
    List (String × String) :=
  [("process_guid", key.processGuid),
   ("instance_guid", instanceKey.instanceGuid),
   ("index", toString key.index)]

/-- The request `CreateRequest(StopLRPInstanceRoute, stopParamsFromLRP key ik, nil)`
builds (plus the Content-Type header set at `client.go:164`), before it is
handed to the regular HTTP client. -/
def buildStopRequest (key : ActualLRPKey) (instanceKey : ActualLRPInstanceKey) :
    Option HTTPRequest :=
  (genPath StopLRPInstanceRoutePath (stopParamsFromLRP key instanceKey)).map
    (fun path =>
      { method := "POST", url := path,
        headers := [("Content-Type", "application/json")], body := none })

/-- `client.StopLRPInstance` (`client.go:155`): build the request, issue it on
the regular client, then demand `202 Accepted`. -/
def StopLRPInstance (c : RepClient) (key : ActualLRPKey)
    (instanceKey : ActualLRPInstanceKey) : Except String Unit :=
  match buildStopRequest key instanceKey with
  | none => .error "missing param"
  | some req =>
    match c.httpClient.doReq { req with url := c.address ++ req.url } with
    | .error e => .error e
    | .ok resp =>
      if resp.status ≠ 202 then
        .error ("http error: status code " ++ toString resp.status ++
          " (" ++ statusText resp.status ++ ")")
      else
        .ok ()

/-- `client.CancelTask` (`client.go:179`): same shape over the cancel route
(no Content-Type header is set there). -/
def CancelTask (c : RepClient) (taskGuid : String) : Except String Unit :=
  match genPath CancelTaskRoutePath [("task_guid", taskGuid)] with
  | none => .error "missing param"
  | some path =>
    match c.httpClient.doReq
        { method := "POST", url := c.address ++ path, headers := [], body := none } with
    | .error e => .error e
    | .ok resp =>
      if resp.status ≠ 202 then
        .error ("http error: status code " ++ toString resp.status ++
          " (" ++ statusText resp.status ++ ")")
      else
        .ok ()

/-- `client.State` (`client.go:81`): the request is issued on the dedicated
`stateClient`, a non-200 status is an error, then the body is decoded. -/
def State (c : RepClient) : Except String CellState :=
  match genPath StateRoutePath [] with
  | none => .error "missing param"
  | some path =>
    match c.stateClient.doReq
        { method := "GET", url := c.address ++ path, headers := [], body := none } with
    | .error e => .error e
    | .ok resp =>
      if resp.status ≠ 200 then
        .error ("unexpected status code: " ++ toString resp.status)
      else
        match decodeCellState resp.body with
        | none => .error "json decode error"
        | some s => .ok s

/-- `client.Perform` (`client.go:106`): marshal the work, issue on the regular
client, demand 200, decode the failed work. -/
def Perform (c : RepClient) (work : Work) : Except String Work :=
  match genPath PerformRoutePath [] with
  | none => .error "missing param"
  | some path =>
    match c.httpClient.doReq
        { method := "POST", url := c.address ++ path, headers := [],
          body := some (.work work) } with
    | .error e => .error e
    | .ok resp =>
      if resp.status ≠ 200 then
        .error ("unexpected status code: " ++ toString resp.status)
      else
        match decodeWork resp.body with
        | none => .error "json decode error"
        | some w => .ok w

/-- An HTTP client whose every exchange succeeds with the given status and an
empty body — the shape of the ghttp handlers in `src/client_test.go`. -/
def constStatusClient (s : Nat) : HTTPClient :=
  { timeout := 0, doReq := fun _ => .ok { status := s, body := .raw "" } }

/-! ## Startup CA-cert validation (`cmd/rep/main.go`, not under `src/`) -/

/-- Outcome of the agent's startup validation: either the agent starts, or it
exits with code 1 after emitting the given log line. -/
inductive StartupResult where
  | started
  | exit1 (log : String)
  deriving Repr, DecidableEq

/-- Whether `pat` is a prefix of `l`. -/
def listIsPrefix : List Char → List Char → Bool
  | [], _ => true
  | _ :: _, [] => false
  | a :: as, b :: bs => a == b && listIsPrefix as bs

/-- Whether `pat` occurs anywhere inside the character list. -/
def listContains (pat : List Char) : List Char → Bool
  | [] => listIsPrefix pat []
  | a :: as => listIsPrefix pat (a :: as) || listContains pat as

/-- Whether the contents hold at least one PEM certificate block — the model
of `x509.CertPool.AppendCertsFromPEM` succeeding: the test's
`"invalid cert bundle"` has no block, the fixture bundles have two. -/
def containsCertPEMBlock (contents : String) : Bool :=
  listContains "-----BEGIN CERTIFICATE-----".data contents.data

/-- ASCII whitespace, as `strings.TrimSpace` discards it. -/
def isWhitespaceChar (c : Char) : Bool :=
  c == ' ' || c == '\t' || c == '\n' || c == '\r'

/-- Whether the contents are empty once leading/trailing whitespace is
trimmed, i.e. all-whitespace (`len(strings.TrimSpace(contents)) == 0`). -/
def trimmedEmpty (contents : String) : Bool :=
  contents.data.all isWhitespaceChar

/-- Modelled from the spec: the CA-cert validation of `cmd/rep/main.go` is not
under `src/`; per §6 ("The CA-cert file, if given, must be a readable file
containing one or more PEM blocks; leading/trailing whitespace is tolerated")
and the startup tests: an unreadable file exits 1 with
`failed-to-open-ca-cert-file`; contents that are empty after trimming are
accepted (`main_test.go:140` expects the empty file to start); non-empty
contents with no PEM certificate block exit 1 with
`unable to load CA certificate`.  `fs` maps a path to the file's contents,
`none` when the file cannot be opened. -/
def caCertStartup (fs : String → Option String) (caCertFile : Option String) :
    StartupResult :=
  match caCertFile with
  | none => .started
  | some path =>
    match fs path with
    | none => .exit1 "failed-to-open-ca-cert-file"
    | some contents =>
      if trimmedEmpty contents then .started
      else if containsCertPEMBlock contents then .started
      else .exit1 "unable to load CA certificate"

/-! ## Capacity advertisement and the resource ledger (spec §3, §4.1; the
executor's capacity fetch is not under `src/`) -/

/-- Garden's reported capacity (`garden.Capacity`), as configured by the fake
backend in `main_test.go:65`. -/
structure GardenCapacity where
  memoryInBytes : Nat
  diskInBytes : Nat
  maxContainers : Nat
  deriving Repr, DecidableEq

/-- Modelled from the spec: capacity advertisement (§8 scenario 3) — bytes are
converted to megabytes, and each container occupying a slot at fetch time
(here the healthcheck container) is subtracted from the advertised container
count.  The conversion code lives in the executor dependency, not `src/`. -/
def totalResourcesFromCapacity (cap : GardenCapacity) (occupiedSlots : Nat) :
    Resources :=
  { memoryMB := cap.memoryInBytes / (1024 * 1024),
    diskMB := cap.diskInBytes / (1024 * 1024),
    containers := cap.maxContainers - occupiedSlots }

/-- Allocation states (spec §3, forward-only lifecycle). -/
inductive AllocState where
  | Reserved
  | Initialising
  | Created
  | Running
  | Completed
  deriving Repr, DecidableEq

/-- An allocation of the ledger (spec §3): its placement-key guid, the
resources it holds and its lifecycle state. -/
structure Allocation where
  guid : String
  resources : Resources
  state : AllocState
  deriving Repr, DecidableEq

/-- Pointwise addition of resource triples. -/
def addRes (a b : Resources) : Resources :=
  { memoryMB := a.memoryMB + b.memoryMB,
    diskMB := a.diskMB + b.diskMB,
    containers := a.containers + b.containers }

/-- Pointwise subtraction saturating at zero (spec §3: Resources supports
pointwise subtraction that saturates at zero). -/
def subSat (a b : Resources) : Resources :=
  { memoryMB := a.memoryMB - b.memoryMB,
    diskMB := a.diskMB - b.diskMB,
    containers := a.containers - b.containers }

/-- Resources held by the non-Completed allocations (spec invariant I1). -/
def allocatedResources (allocs : List Allocation) : Resources :=
  (allocs.filter (fun a => !(a.state == AllocState.Completed))).foldl
    (fun acc a => addRes acc a.resources) { memoryMB := 0, diskMB := 0, containers := 0 }

/-- Modelled from the spec: invariant I1,
`AvailableResources = TotalResources − Σ resources of non-Completed allocations`. -/
def availableResources (total : Resources) (allocs : List Allocation) : Resources :=
  subSat total (allocatedResources allocs)

/-! ## Bulk reconciler (spec §4.7; the reconciler is not under `src/`) -/

/-- Container lifecycle classes (spec §3: tags carry a lifecycle class;
healthcheck containers are invisible to reconciliation). -/
inductive Lifecycle where
  | app
  | task
  | healthcheck
  deriving Repr, DecidableEq

/-- A backend container as reconciliation sees it: handle, the placement-key
guid carried in its tags, and its lifecycle class. -/
structure Container where
  handle : String
  guid : String
  lifecycle : Lifecycle
  deriving Repr, DecidableEq

/-- Task states of the record store, as far as reconciliation consults them. -/
inductive TaskState where
  | pending
  | running
  | completed
  deriving Repr, DecidableEq

/-- A task record of the record store. -/
structure TaskRecord where
  taskGuid : String
  cellId : String
  state : TaskState
  failed : Bool
  failureReason : String
  deriving Repr, DecidableEq

/-- An actual-LRP claim of the record store. -/
structure LRPClaim where
  processGuid : String
  index : Nat
  cellId : String
  instanceGuid : String
  deriving Repr, DecidableEq

/-- The record store's entries relevant to this cell's reconciler. -/
structure RecordStore where
  tasks : List TaskRecord
  lrps : List LRPClaim
  deriving Repr, DecidableEq

/-- Whether the backend holds a non-healthcheck container tagged with the
given placement-key guid (healthcheck containers are invisible, spec §3). -/
def backendHasContainer (containers : List Container) (guid : String) : Bool :=
  containers.any (fun c => c.guid == guid && !(c.lifecycle == Lifecycle.healthcheck))

/-- `FailTask`: mark the task Completed and Failed with the given reason. -/
def failTask (reason : String) (t : TaskRecord) : TaskRecord :=
  { t with state := .completed, failed := true, failureReason := reason }

/-- The `StaleTasks` bucket test (spec §4.7 step 2): a store task claimed by
this cell with no container. -/
def staleTask (cellId : String) (containers : List Container) (t : TaskRecord) : Bool :=
  t.cellId == cellId && t.state == TaskState.running &&
    !backendHasContainer containers t.taskGuid

/-- The `MissingContainers` bucket test (spec §4.7 step 2): a store claim
naming this cell for which the backend has nothing. -/
def orphanClaim (cellId : String) (containers : List Container) (l : LRPClaim) : Bool :=
  l.cellId == cellId && !backendHasContainer containers l.processGuid

/-- Modelled from the spec: one reconciliation tick's record-store effect
(§4.7 step 3); the reconciler is not under `src/`.  `StaleTasks → FailTask`
with reason `no-container`; `MissingContainers → RemoveActualLRP`. -/
def reconcileTick (cellId : String) (containers : List Container) (s : RecordStore) :
    RecordStore :=
  { tasks := s.tasks.map (fun t =>
      if staleTask cellId containers t then failTask "no-container" t else t),
    lrps := s.lrps.filter (fun l => !orphanClaim cellId containers l) }

/-- `n` reconciliation ticks, most recent last. -/
def reconcileN (cellId : String) (containers : List Container) :
    Nat → RecordStore → RecordStore
  | 0, s => s
  | n + 1, s => reconcileTick cellId containers (reconcileN cellId containers n s)

/-- Whether the record store has any entry (task or LRP claim) naming this
cell under the given placement-key guid. -/
def storeNamesGuid (cellId : String) (s : RecordStore) (guid : String) : Bool :=
  s.tasks.any (fun t => t.taskGuid == guid && t.cellId == cellId) ||
  s.lrps.any (fun l => l.processGuid == guid && l.cellId == cellId)

/-- Modelled from the spec: startup reconciliation (§4.7) — the first tick
destroys every pre-existing non-healthcheck container without a record-store
entry naming this cell; this code is not under `src/`.  Returns the handles
receiving a `Destroy`. -/
def startupDestroyList (cellId : String) (containers : List Container)
    (s : RecordStore) : List String :=
  (containers.filter (fun c =>
    !(c.lifecycle == Lifecycle.healthcheck) && !storeNamesGuid cellId s c.guid)).map
    (fun c => c.handle)

/-! ## Evacuation controller (spec §4.8; not under `src/`) -/

/-- Phases of the evacuation controller after the `/evacuate` trigger, with
the milliseconds elapsed while evacuating. -/
inductive EvacPhase where
  | evacuating (elapsedMs : Nat)
  | drained
  | exited (code : Nat)
  deriving Repr, DecidableEq

/-- Evacuation controller state: phase plus the cell's allocations. -/
structure EvacController where
  phase : EvacPhase
  allocs : List Allocation
  deriving Repr, DecidableEq

/-- All allocations have reached Completed (drain condition (a), spec §4.8). -/
def allocsDone (allocs : List Allocation) : Bool :=
  allocs.all (fun a => a.state == AllocState.Completed)

/-- Force-stop the surviving allocations (deadline expiry, spec §4.8). -/
def forceStop (allocs : List Allocation) : List Allocation :=
  allocs.map (fun a => { a with state := AllocState.Completed })

/-- Modelled from the spec: one millisecond of the evacuation controller
(§4.8), which is not under `src/`.  `Evacuating → Drained` when every
allocation is Completed or when the hard deadline `tEvacMs` fires (surviving
allocations are then force-stopped); `Drained → Exit` with status 0. -/
def evacStep (tEvacMs : Nat) (c : EvacController) : EvacController :=
  match c.phase with
  | .evacuating elapsed =>
    if allocsDone c.allocs then
      { c with phase := .drained }
    else if tEvacMs ≤ elapsed then
      { phase := .drained, allocs := forceStop c.allocs }
    else
      { c with phase := .evacuating (elapsed + 1) }
  | .drained => { c with phase := .exited 0 }
  | .exited _ => c

/-- The controller after `n` milliseconds. -/
def evacRun (tEvacMs : Nat) : Nat → EvacController → EvacController
  | 0, c => c
  | n + 1, c => evacStep tEvacMs (evacRun tEvacMs n c)

/-! ## Backend-health startup gate (spec §7 user-visible failure; the
watchdog and supervisor are not under `src/`) -/

/-- Startup phases of the agent with respect to the backend probe. -/
inductive AgentPhase where
  | waiting
  | started
  | exited
  deriving Repr, DecidableEq

/-- Modelled from the spec: "When the backend is down at startup, the agent
keeps waiting and does not announce started; when it recovers, the agent
announces started" (§7) — the watchdog/supervisor code is not under `src/`.
`reachable t` is the outcome of the probe made between instants `t` and
`t+1`; the waiting loop retries forever and never exits. -/
def agentPhase (reachable : Nat → Bool) : Nat → AgentPhase
  | 0 => .waiting
  | t + 1 =>
    match agentPhase reachable t with
    | .started => .started
    | .exited => .exited
    | .waiting => if reachable t then .started else .waiting

/-! ## Theorems -/

lemma StopLRPInstance_constStatus (key : ActualLRPKey) (ik : ActualLRPInstanceKey)
    (sc : HTTPClient) (addr : String) (s : Nat) :
    StopLRPInstance (NewClient (constStatusClient s) sc addr) key ik =
      if s ≠ 202 then
        .error ("http error: status code " ++ toString s ++ " (" ++ statusText s ++ ")")
      else .ok () := rfl

lemma CancelTask_constStatus (taskGuid : String) (sc : HTTPClient) (addr : String) (s : Nat) :
    CancelTask (NewClient (constStatusClient s) sc addr) taskGuid =
      if s ≠ 202 then
        .error ("http error: status code " ++ toString s ++ " (" ++ statusText s ++ ")")
      else .ok () := rfl

/-- C1: for every LRP key / instance key and every task guid, `StopLRPInstance`
and `CancelTask` return no error exactly when the cell responds 202 Accepted;
any other status yields an error whose message is
`http error: status code <status>` followed by the rest of the formatted
text. -/
theorem stop_cancel_accepted_iff_202 (key : ActualLRPKey) (ik : ActualLRPInstanceKey)
    (taskGuid : String) (sc : HTTPClient) (addr : String) (s : Nat) :
    (StopLRPInstance (NewClient (constStatusClient s) sc addr) key ik = .ok () ↔ s = 202)
    ∧ (CancelTask (NewClient (constStatusClient s) sc addr) taskGuid = .ok () ↔ s = 202)
    ∧ (s ≠ 202 → ∃ rest,
        StopLRPInstance (NewClient (constStatusClient s) sc addr) key ik =
          .error (("http error: status code " ++ toString s) ++ rest))
    ∧ (s ≠ 202 → ∃ rest,
        CancelTask (NewClient (constStatusClient s) sc addr) taskGuid =
          .error (("http error: status code " ++ toString s) ++ rest)) := by
  have hstop := StopLRPInstance_constStatus key ik sc addr s
  have hcancel := CancelTask_constStatus taskGuid sc addr s
  refine ⟨?_, ?_, ?_, ?_⟩
  · rw [hstop]; by_cases h : s = 202 <;> simp [h]
  · rw [hcancel]; by_cases h : s = 202 <;> simp [h]
  · intro h
    rw [hstop]
    refine ⟨" (" ++ statusText s ++ ")", ?_⟩
    simp [h, String.append_assoc]
  · intro h
    rw [hcancel]
    refine ⟨" (" ++ statusText s ++ ")", ?_⟩
    simp [h, String.append_assoc]

/-- Witness for C1 at the test's inputs and status 500. -/
theorem stop_cancel_accepted_iff_202_witness :
    (StopLRPInstance (NewClient (constStatusClient 500) (constStatusClient 0) "http://cell.example.com")
        { processGuid := "some-process-guid", index := 2, domain := "test-domain" }
        { instanceGuid := "some-instance-guid", cellId := "some-cell-id" } = .ok () ↔ (500 : Nat) = 202)
    ∧ (CancelTask (NewClient (constStatusClient 500) (constStatusClient 0) "http://cell.example.com")
        "some-task-guid" = .ok () ↔ (500 : Nat) = 202)
    ∧ (∃ rest,
        StopLRPInstance (NewClient (constStatusClient 500) (constStatusClient 0) "http://cell.example.com")
          { processGuid := "some-process-guid", index := 2, domain := "test-domain" }
          { instanceGuid := "some-instance-guid", cellId := "some-cell-id" } =
          .error (("http error: status code " ++ toString (500 : Nat)) ++ rest))
    ∧ (∃ rest,
        CancelTask (NewClient (constStatusClient 500) (constStatusClient 0) "http://cell.example.com")
          "some-task-guid" =
          .error (("http error: status code " ++ toString (500 : Nat)) ++ rest)) := by
  obtain ⟨h1, h2, h3, h4⟩ := stop_cancel_accepted_iff_202
    { processGuid := "some-process-guid", index := 2, domain := "test-domain" }
    { instanceGuid := "some-instance-guid", cellId := "some-cell-id" }
    "some-task-guid" (constStatusClient 0) "http://cell.example.com" 500
  exact ⟨h1, h2, h3 (by decide), h4 (by decide)⟩

/-- C2: `State` issues its request through the dedicated state HTTP client —
its outcome is untouched by any change of the regular client — while
`StopLRPInstance`, `CancelTask` and `Perform` never consult the state client;
and `StateClientTimeout` reports the state client's timeout. -/
theorem State_uses_dedicated_stateClient (hc hc' sc sc' : HTTPClient) (addr : String)
    (key : ActualLRPKey) (ik : ActualLRPInstanceKey) (taskGuid : String) (w : Work) :
    State (NewClient hc sc addr) = State (NewClient hc' sc addr)
    ∧ StateClientTimeout (NewClient hc sc addr) = sc.timeout
    ∧ StopLRPInstance (NewClient hc sc addr) key ik = StopLRPInstance (NewClient hc sc' addr) key ik
    ∧ CancelTask (NewClient hc sc addr) taskGuid = CancelTask (NewClient hc sc' addr) taskGuid
    ∧ Perform (NewClient hc sc addr) w = Perform (NewClient hc sc' addr) w :=
  ⟨rfl, rfl, rfl, rfl, rfl⟩

/-- C3 counterexample: a configured CA-cert file whose contents are empty —
hence contain no valid certificate — does not exit 1; the agent starts
(`main_test.go:140` asserts exactly this). -/
theorem caCert_empty_file_counterexample :
    containsCertPEMBlock "" = false
    ∧ caCertStartup (fun p => if p = "ca.crt" then some "" else none) (some "ca.crt")
        = .started := by
  exact ⟨by decide, by decide⟩

/-- C3 (amended): with a CA-cert file path configured, a missing file exits 1
logging `failed-to-open-ca-cert-file`; contents that are non-empty after
trimming whitespace and contain no valid certificate exit 1 logging
`unable to load CA certificate`; valid PEM blocks (whitespace tolerated) and
empty or whitespace-only contents start the agent. -/
theorem caCert_startup_amended (fs : String → Option String) (path contents : String) :
    caCertStartup fs none = .started
    ∧ (fs path = none →
        caCertStartup fs (some path) = .exit1 "failed-to-open-ca-cert-file")
    ∧ (fs path = some contents → trimmedEmpty contents = true →
        caCertStartup fs (some path) = .started)
    ∧ (fs path = some contents → containsCertPEMBlock contents = true →
        caCertStartup fs (some path) = .started)
    ∧ (fs path = some contents → trimmedEmpty contents = false →
        containsCertPEMBlock contents = false →
        caCertStartup fs (some path) = .exit1 "unable to load CA certificate") := by
  refine ⟨rfl, ?_, ?_, ?_, ?_⟩
  · intro h1; simp [caCertStartup, h1]
  · intro h1 h2; simp [caCertStartup, h1, h2]
  · intro h1 h2
    by_cases ht : trimmedEmpty contents <;> simp [caCertStartup, h1, h2, ht]
  · intro h1 h2 h3; simp [caCertStartup, h1, h2, h3]

/-- The filesystem of the startup tests: the invalid bundle, a valid bundle,
a valid bundle with extra whitespace, and the empty file. -/
def testCertFS : String → Option String := fun p =>
  if p = "invalid.crt" then some "invalid cert bundle"
  else if p = "valid.crt" then
    some "-----BEGIN CERTIFICATE-----\nMIIBdzCCASOgAwIBAgIBADALBgkq\n-----END CERTIFICATE-----"
  else if p = "whitespace.crt" then
    some "\n\t \n-----BEGIN CERTIFICATE-----\nMIIBdzCC\n-----END CERTIFICATE-----\n\n"
  else if p = "empty.crt" then some ""
  else none

/-- Witness for C3 (amended) on the startup-test filesystem. -/
theorem caCert_startup_amended_witness :
    caCertStartup testCertFS (some "does-not-exist") = .exit1 "failed-to-open-ca-cert-file"
    ∧ caCertStartup testCertFS (some "invalid.crt") = .exit1 "unable to load CA certificate"
    ∧ caCertStartup testCertFS (some "valid.crt") = .started
    ∧ caCertStartup testCertFS (some "whitespace.crt") = .started
    ∧ caCertStartup testCertFS (some "empty.crt") = .started := by
  refine ⟨(caCert_startup_amended testCertFS "does-not-exist" "").2.1 (by decide),
    (caCert_startup_amended testCertFS "invalid.crt" "invalid cert bundle").2.2.2.2
      (by decide) (by decide) (by decide),
    (caCert_startup_amended testCertFS "valid.crt"
      "-----BEGIN CERTIFICATE-----\nMIIBdzCCASOgAwIBAgIBADALBgkq\n-----END CERTIFICATE-----").2.2.2.1
      (by decide) (by decide),
    (caCert_startup_amended testCertFS "whitespace.crt"
      "\n\t \n-----BEGIN CERTIFICATE-----\nMIIBdzCC\n-----END CERTIFICATE-----\n\n").2.2.2.1
      (by decide) (by decide),
    (caCert_startup_amended testCertFS "empty.crt" "").2.2.1 (by decide) (by decide)⟩

/-- C4: Garden capacity `MemoryInBytes=1GiB, DiskInBytes=2GiB, MaxContainers=4`
with one healthcheck container occupying a slot advertises
`TotalResources = {1024, 2048, 3}`; and with no remaining allocations the
available resources equal the total — in particular that same triple. -/
theorem capacity_advertisement :
    totalResourcesFromCapacity
        { memoryInBytes := 1024 * 1024 * 1024, diskInBytes := 2048 * 1024 * 1024,
          maxContainers := 4 } 1
      = { memoryMB := 1024, diskMB := 2048, containers := 3 }
    ∧ (∀ total : Resources, availableResources total [] = total)
    ∧ availableResources { memoryMB := 1024, diskMB := 2048, containers := 3 } []
      = { memoryMB := 1024, diskMB := 2048, containers := 3 } := by
  have havail : ∀ total : Resources, availableResources total [] = total := by
    intro t
    cases t
    simp [availableResources, allocatedResources, subSat]
  exact ⟨by decide, havail, havail _⟩

/-- C5: every pre-existing non-healthcheck backend container with no
record-store entry naming this cell is on the first tick's destroy list. -/
theorem startup_reconciliation_destroys (cellId : String) (containers : List Container)
    (s : RecordStore) (c : Container) (hc : c ∈ containers)
    (hlc : c.lifecycle ≠ Lifecycle.healthcheck)
    (hns : storeNamesGuid cellId s c.guid = false) :
    c.handle ∈ startupDestroyList cellId containers s := by
  unfold startupDestroyList
  refine List.mem_map_of_mem _ ?_
  rw [List.mem_filter]
  refine ⟨hc, ?_⟩
  simp [hns, hlc]

/-- Witness for C5: the startup-cleanup scenario — backend containers `cnr1`
and `cnr2`, an empty record store — destroys both. -/
theorem startup_reconciliation_destroys_witness :
    "cnr1" ∈ startupDestroyList "the-cell-id"
        [{ handle := "cnr1", guid := "g1", lifecycle := .app },
         { handle := "cnr2", guid := "g2", lifecycle := .task }] { tasks := [], lrps := [] }
    ∧ "cnr2" ∈ startupDestroyList "the-cell-id"
        [{ handle := "cnr1", guid := "g1", lifecycle := .app },
         { handle := "cnr2", guid := "g2", lifecycle := .task }] { tasks := [], lrps := [] } :=
  ⟨startup_reconciliation_destroys "the-cell-id" _ _
      { handle := "cnr1", guid := "g1", lifecycle := .app } (by decide) (by decide) (by decide),
   startup_reconciliation_destroys "the-cell-id" _ _
      { handle := "cnr2", guid := "g2", lifecycle := .task } (by decide) (by decide) (by decide)⟩

/-- C6: a record-store task claimed by this cell with no backend container is
marked Completed and Failed (reason `no-container`) within 5 ticks — already
on the first. -/
theorem stale_task_marked_failed (cellId : String) (containers : List Container)
    (s : RecordStore) (t : TaskRecord) (ht : t ∈ s.tasks) (hcell : t.cellId = cellId)
    (hrun : t.state = TaskState.running)
    (hnc : backendHasContainer containers t.taskGuid = false) :
    ∃ n, n ≤ 5 ∧
      failTask "no-container" t ∈ (reconcileN cellId containers n s).tasks
      ∧ (failTask "no-container" t).state = TaskState.completed
      ∧ (failTask "no-container" t).failed = true := by
  refine ⟨1, by norm_num, ?_, rfl, rfl⟩
  show failTask "no-container" t ∈ (reconcileTick cellId containers s).tasks
  have hstale : staleTask cellId containers t = true := by
    simp [staleTask, hcell, hrun, hnc]
  have heq : failTask "no-container" t =
      (fun t => if staleTask cellId containers t then failTask "no-container" t else t) t := by
    simp [hstale]
  rw [heq]
  exact List.mem_map_of_mem _ ht

/-- Witness for C6: the orphaned-task scenario (`task-guid` claimed by this
cell, empty backend). -/
theorem stale_task_marked_failed_witness :
    ∃ n, n ≤ 5 ∧
      failTask "no-container"
          { taskGuid := "task-guid", cellId := "the-cell-id", state := .running,
            failed := false, failureReason := "" }
        ∈ (reconcileN "the-cell-id" [] n
            { tasks := [{ taskGuid := "task-guid", cellId := "the-cell-id", state := .running,
                          failed := false, failureReason := "" }], lrps := [] }).tasks
      ∧ (failTask "no-container"
          { taskGuid := "task-guid", cellId := "the-cell-id", state := .running,
            failed := false, failureReason := "" }).state = TaskState.completed
      ∧ (failTask "no-container"
          { taskGuid := "task-guid", cellId := "the-cell-id", state := .running,
            failed := false, failureReason := "" }).failed = true :=
  stale_task_marked_failed "the-cell-id" [] _ _ (by decide) (by decide) (by decide) (by decide)

/-- C7: every LRP claim naming this cell with no backend container is removed
within 5 ticks; when every stored claim is such an orphan, the store's claim
list becomes empty (so `ActualLRPGroups()` returns empty). -/
theorem orphaned_lrp_claims_reaped (cellId : String) (containers : List Container)
    (s : RecordStore) :
    (∀ l ∈ s.lrps, l.cellId = cellId →
      backendHasContainer containers l.processGuid = false →
      ∃ n, n ≤ 5 ∧ l ∉ (reconcileN cellId containers n s).lrps)
    ∧ ((∀ l ∈ s.lrps, l.cellId = cellId ∧
          backendHasContainer containers l.processGuid = false) →
        ∃ n, n ≤ 5 ∧ (reconcileN cellId containers n s).lrps = []) := by
  constructor
  · intro l hl h1 h2
    refine ⟨1, by norm_num, ?_⟩
    show l ∉ (reconcileTick cellId containers s).lrps
    intro hmem
    rw [reconcileTick, List.mem_filter] at hmem
    have horph : orphanClaim cellId containers l = true := by simp [orphanClaim, h1, h2]
    simp [horph] at hmem
  · intro hall
    refine ⟨1, by norm_num, ?_⟩
    show (reconcileTick cellId containers s).lrps = []
    rw [reconcileTick]
    refine List.filter_eq_nil_iff.mpr ?_
    intro l hl
    have h := hall l hl
    simp [orphanClaim, h.1, h.2]

/-- Witness for C7: the orphaned-LRP scenario (`process-guid/0` claimed by
this cell, empty backend) leaves an empty claim list. -/
theorem orphaned_lrp_claims_reaped_witness :
    ∃ n, n ≤ 5 ∧
      (reconcileN "the-cell-id" [] n
        { tasks := [],
          lrps := [{ processGuid := "process-guid", index := 0, cellId := "the-cell-id",
                     instanceGuid := "some-instance-guid" }] }).lrps = [] :=
  (orphaned_lrp_claims_reaped "the-cell-id" []
    { tasks := [],
      lrps := [{ processGuid := "process-guid", index := 0, cellId := "the-cell-id",
                 instanceGuid := "some-instance-guid" }] }).2 (by decide)

lemma evacRun_evacuating (t : Nat) (allocs : List Allocation)
    (hstuck : allocsDone allocs = false) :
    ∀ k, k ≤ t →
      evacRun t k { phase := .evacuating 0, allocs := allocs } =
        { phase := .evacuating k, allocs := allocs } := by
  intro k
  induction k with
  | zero => intro _; rfl
  | succ n ih =>
    intro hk
    have hn : n ≤ t := Nat.le_of_succ_le hk
    show evacStep t (evacRun t n { phase := .evacuating 0, allocs := allocs }) = _
    rw [ih hn]
    have hlt : ¬ t ≤ n := Nat.not_le.mpr (Nat.lt_of_succ_le hk)
    simp [evacStep, hstuck, hlt]

/-- C8: after the evacuation trigger, even with stuck allocations the
controller reaches Exit with status 0 within `2·T_evac + 2s` (here: within
`t + 2` milliseconds `≤ 2·t + 2000`). -/
theorem evacuation_exits_within_deadline (t : Nat) (allocs : List Allocation)
    (hstuck : allocsDone allocs = false) :
    ∃ n, n ≤ 2 * t + 2000 ∧
      (evacRun t n { phase := .evacuating 0, allocs := allocs }).phase = .exited 0 := by
  refine ⟨t + 2, by omega, ?_⟩
  have h1 := evacRun_evacuating t allocs hstuck t (Nat.le_refl t)
  have h2 : evacRun t (t + 1) { phase := .evacuating 0, allocs := allocs } =
      { phase := .drained, allocs := forceStop allocs } := by
    show evacStep t (evacRun t t { phase := .evacuating 0, allocs := allocs }) = _
    rw [h1]
    simp [evacStep, hstuck]
  show (evacStep t (evacRun t (t + 1) { phase := .evacuating 0, allocs := allocs })).phase = _
  rw [h2]
  rfl

/-- Witness for C8: one stuck Running LRP, `T_evac = 3` ms. -/
theorem evacuation_exits_within_deadline_witness :
    ∃ n, n ≤ 2 * 3 + 2000 ∧
      (evacRun 3 n
        { phase := .evacuating 0,
          allocs := [{ guid := "process-guid/0",
                       resources := { memoryMB := 10, diskMB := 10, containers := 1 },
                       state := .Running }] }).phase = .exited 0 :=
  evacuation_exits_within_deadline 3
    [{ guid := "process-guid/0",
       resources := { memoryMB := 10, diskMB := 10, containers := 1 },
       state := .Running }] (by decide)

/-- C9: while the backend probe keeps failing the agent is still waiting —
it has neither announced started nor exited; as soon as a probe succeeds the
agent announces started. -/
theorem garden_unavailable_waits_then_starts (reachable : Nat → Bool) (n : Nat)
    (hdown : ∀ t, t < n → reachable t = false) :
    agentPhase reachable n = .waiting
    ∧ agentPhase reachable n ≠ .started
    ∧ agentPhase reachable n ≠ .exited
    ∧ (reachable n = true → agentPhase reachable (n + 1) = .started) := by
  have hw : ∀ m, m ≤ n → agentPhase reachable m = .waiting := by
    intro m
    induction m with
    | zero => intro _; rfl
    | succ k ih =>
      intro hk
      have hk' : k ≤ n := Nat.le_of_succ_le hk
      simp only [agentPhase]
      rw [ih hk']
      simp [hdown k (Nat.lt_of_succ_le hk)]
  have hn := hw n (Nat.le_refl n)
  refine ⟨hn, by rw [hn]; simp, by rw [hn]; simp, ?_⟩
  intro hr
  simp only [agentPhase]
  rw [hn]
  simp [hr]

/-- Witness for C9: probes fail up to instant 4 and succeed at instant 4. -/
theorem garden_unavailable_waits_then_starts_witness :
    agentPhase (fun t => decide (4 ≤ t)) 4 = .waiting
    ∧ agentPhase (fun t => decide (4 ≤ t)) 4 ≠ .started
    ∧ agentPhase (fun t => decide (4 ≤ t)) 4 ≠ .exited
    ∧ ((fun t => decide (4 ≤ t)) 4 = true →
        agentPhase (fun t => decide (4 ≤ t)) (4 + 1) = .started) :=
  garden_unavailable_waits_then_starts (fun t => decide (4 ≤ t)) 4 (by decide)

lemma buildStopRequest_eq (key : ActualLRPKey) (ik : ActualLRPInstanceKey) :
    buildStopRequest key ik = some
      { method := "POST",
        url := String.join ["/v1", "/lrps", "/" ++ key.processGuid, "/instances",
                            "/" ++ ik.instanceGuid, "/stop"],
        headers := [("Content-Type", "application/json")], body := none } := rfl

/-- C10: the stop request depends only on the key's ProcessGuid and the
instance key's InstanceGuid — any two inputs agreeing on those two fields
(whatever their Index, Domain or CellId) produce the identical request, so
the `index` param of `stopParamsFromLRP` never reaches the request path. -/
theorem stop_request_independent_of_index (k1 k2 : ActualLRPKey)
    (ik1 ik2 : ActualLRPInstanceKey)
    (hpg : k1.processGuid = k2.processGuid) (hig : ik1.instanceGuid = ik2.instanceGuid) :
    buildStopRequest k1 ik1 = buildStopRequest k2 ik2
    ∧ ∀ c : RepClient, StopLRPInstance c k1 ik1 = StopLRPInstance c k2 ik2 := by
  have hb : buildStopRequest k1 ik1 = buildStopRequest k2 ik2 := by
    rw [buildStopRequest_eq, buildStopRequest_eq, hpg, hig]
  refine ⟨hb, fun c => ?_⟩
  unfold StopLRPInstance
  rw [hb]

/-- Witness for C10: the test's stop request with Index 2 equals the one with
Index 7 (and different Domain and CellId), and its path is exactly
`/v1/lrps/some-process-guid/instances/some-instance-guid/stop`. -/
theorem stop_request_independent_of_index_witness :
    buildStopRequest { processGuid := "some-process-guid", index := 2, domain := "test-domain" }
        { instanceGuid := "some-instance-guid", cellId := "some-cell-id" }
      = buildStopRequest { processGuid := "some-process-guid", index := 7, domain := "other-domain" }
        { instanceGuid := "some-instance-guid", cellId := "other-cell" }
    ∧ (buildStopRequest { processGuid := "some-process-guid", index := 2, domain := "test-domain" }
        { instanceGuid := "some-instance-guid", cellId := "some-cell-id" }).map
          (fun r => r.url)
      = some "/v1/lrps/some-process-guid/instances/some-instance-guid/stop" :=
  ⟨(stop_request_independent_of_index _ _ _ _ rfl rfl).1, rfl⟩

end Rep
